import Mathlib

/-!
# Hydra adapter for the Moonshine engine: embedding and properties

Shallow embedding of `src/hydra/mesh.cpp` (the per-primitive adapter
`HdMoonshineMesh`) and `src/hydra/renderDelegate.cpp` (the delegate
`HdMoonshineRenderDelegate`).

Conventions of the embedding.

* `HdDirtyBits` is a 32-bit unsigned word, kept as a `Nat`; `~m` is `2 ^ 32 - 1 - m`.
* The host constants `DirtyPoints`, `DirtyTransform`, `DirtyInstancer` and `AllDirty`
  live in a host header that is not part of the sources; they are parameters
  (`HdChangeTracker`), constrained only by `HdChangeTracker.WellFormed`.
* Matrix entries range over an arbitrary scalar type `R` (the source uses `float`);
  the narrowing conversions `GfMatrix4f(GfMatrix4d)` are the identity on `R`.
* Engine calls and coding-error diagnostics are recorded, in program order, as a
  list of `Event`s.  Values returned by the engine are supplied by the caller of
  the model (`SyncInput.meshHandle`, `SyncInput.instanceHandle`).
* `std::vector::operator[]` is modelled by `List` lookup returning an `Option`:
  `none` stands for an access past the end of the vector.
* The host calls `_UpdateInstancer` and `HdInstancer::_SyncInstancerAndParents`
  (mesh.cpp 42-43) maintain host-side instancer bookkeeping; they leave `*dirtyBits`
  and the members of the adapter as they are.  The instancer id is read before
  them (mesh.cpp 41) and is an input of each call.
-/

namespace Moonshine

/-! ## Host framework: dirty bits -/

/-- Host dirty-bit word `HdDirtyBits` (a `uint32_t`). -/
abbrev HdDirtyBits := Nat

/-- Bitwise complement `~m` of a 32-bit word. -/
def bitNot32 (m : Nat) : Nat := 2 ^ 32 - 1 - m

/-- The expression `bits & ~m` of the source. -/
def clearBits (bits m : HdDirtyBits) : HdDirtyBits := bits &&& bitNot32 m

/-- Constants of the host class `HdChangeTracker` used by the adapter. -/
structure HdChangeTracker where
  DirtyPoints : HdDirtyBits
  DirtyTransform : HdDirtyBits
  DirtyInstancer : HdDirtyBits
  AllDirty : HdDirtyBits

/-- Host predicate `HdChangeTracker::IsTransformDirty(bits, id)`. -/
def HdChangeTracker.IsTransformDirty (ct : HdChangeTracker) (bits : HdDirtyBits) : Bool :=
  (bits &&& ct.DirtyTransform) != 0

/-- Host predicate `HdChangeTracker::IsInstancerDirty(bits, id)`. -/
def HdChangeTracker.IsInstancerDirty (ct : HdChangeTracker) (bits : HdDirtyBits) : Bool :=
  (bits &&& ct.DirtyInstancer) != 0

/-- Host predicate `HdChangeTracker::IsPrimvarDirty(bits, id, HdTokens->points)`. -/
def HdChangeTracker.IsPrimvarDirtyPoints (ct : HdChangeTracker) (bits : HdDirtyBits) : Bool :=
  (bits &&& ct.DirtyPoints) != 0

/-- Host predicate `HdChangeTracker::IsClean(bits)`. -/
def HdChangeTracker.IsClean (ct : HdChangeTracker) (bits : HdDirtyBits) : Bool :=
  (bits &&& ct.AllDirty) == 0

/-- The three masks are non-zero 32-bit words with pairwise disjoint bits. -/
structure HdChangeTracker.WellFormed (ct : HdChangeTracker) : Prop where
  points_lt : ct.DirtyPoints < 2 ^ 32
  transform_lt : ct.DirtyTransform < 2 ^ 32
  instancer_lt : ct.DirtyInstancer < 2 ^ 32
  points_ne : ct.DirtyPoints ≠ 0
  transform_ne : ct.DirtyTransform ≠ 0
  instancer_ne : ct.DirtyInstancer ≠ 0
  transform_instancer : ct.DirtyTransform &&& ct.DirtyInstancer = 0
  transform_points : ct.DirtyTransform &&& ct.DirtyPoints = 0
  instancer_points : ct.DirtyInstancer &&& ct.DirtyPoints = 0

/-- One concrete choice of host constants (bits 5, 9 and 16; every bit but bit 1
counts as dirty), used to evaluate the model on concrete inputs. -/
def hostBits : HdChangeTracker :=
  { DirtyPoints := 32, DirtyTransform := 512, DirtyInstancer := 65536,
    AllDirty := 4294967293 }

/-! ## Host framework: matrices, paths, tokens -/

/-- Host matrix `GfMatrix4f`: entry `m[i][j]` is `m i j`. -/
abbrev GfMatrix4f (R : Type) := Fin 4 → Fin 4 → R

/-- Host constructor `GfMatrix4f(s)`: the diagonal matrix with `s` on the diagonal. -/
def GfMatrix4f.diag {R : Type} [Zero R] (s : R) : GfMatrix4f R :=
  fun i j => if i = j then s else 0

/-- Host operator `GfMatrix4f::operator*`. -/
def GfMatrix4f.mul {R : Type} [Add R] [Mul R] (a b : GfMatrix4f R) : GfMatrix4f R :=
  fun i j => a i 0 * b 0 j + a i 1 * b 1 j + a i 2 * b 2 j + a i 3 * b 3 j

/-- Host path `SdfPath`. -/
abbrev SdfPath := String

/-- Host token `TfToken`. -/
abbrev TfToken := String

/-- Host token `HdPrimTypeTokens->mesh`. -/
def HdPrimTypeTokens.mesh : TfToken := "mesh"

/-! ## Engine API (`moonshine.h`) -/

/-- Engine context handle `HdMoonshine*`. -/
structure HdMoonshine where
  raw : Nat
deriving DecidableEq

/-- Engine mesh handle. -/
structure MeshHandle where
  raw : Nat
deriving DecidableEq

/-- Engine instance handle. -/
structure InstanceHandle where
  raw : Nat
deriving DecidableEq

/-- Engine material handle. -/
structure MaterialHandle where
  raw : Nat
deriving DecidableEq

/-- Engine vector `F32x3`. -/
structure F32x3 (R : Type) where
  x : R
  y : R
  z : R
deriving DecidableEq

/-- Engine vector `U32x3`. -/
structure U32x3 where
  x : Nat
  y : Nat
  z : Nat
deriving DecidableEq

/-- Engine vector `F32x4`. -/
structure F32x4 (R : Type) where
  x : R
  y : R
  z : R
  w : R
deriving DecidableEq

/-- Engine matrix `Mat3x4`: three rows `x`, `y`, `z` of four columns each. -/
structure Mat3x4 (R : Type) where
  x : F32x4 R
  y : F32x4 R
  z : F32x4 R
deriving DecidableEq

/-- Column `c` of an engine row. -/
def F32x4.col {R : Type} (v : F32x4 R) (c : Fin 4) : R :=
  match c with
  | 0 => v.x
  | 1 => v.y
  | 2 => v.z
  | 3 => v.w

/-- Entry of an engine matrix at row `r` (x, y, z) and column `c` (x, y, z, w). -/
def Mat3x4.entry {R : Type} (m : Mat3x4 R) (r : Fin 3) (c : Fin 4) : R :=
  match r with
  | 0 => m.x.col c
  | 1 => m.y.col c
  | 2 => m.z.col c

/-- Engine struct `Geometry`. -/
structure Geometry where
  mesh : MeshHandle
  material : MaterialHandle
  sampled : Bool
deriving DecidableEq

/-- Observable effects of the adapter, in program order: calls into the engine
and the two coding-error diagnostics of `Sync`.  `HdMoonshineDestroyMesh` stands for
the destroy call for meshes that the specification lists among the calls of the
engine API; no function of the sources issues it. -/
inductive Event (R : Type) where
  | HdMoonshineCreateMesh (msne : HdMoonshine) (positions : List (F32x3 R))
      (positionCount : Nat) (indices : List U32x3) (indexCount : Nat) (ret : MeshHandle)
  | HdMoonshineCreateInstance (msne : HdMoonshine) (transform : Mat3x4 R)
      (geometry : Geometry) (geometryCount : Nat) (ret : InstanceHandle)
  | HdMoonshineSetInstanceTransform (msne : HdMoonshine) (handle : Option InstanceHandle)
      (transform : Mat3x4 R)
  | HdMoonshineDestroyInstance (msne : HdMoonshine) (handle : InstanceHandle)
  | HdMoonshineDestroyMesh (msne : HdMoonshine) (handle : MeshHandle)
  | changedInstanceCountError (id : SdfPath)
  | ignoredDirtyBitsError (bits : HdDirtyBits) (id : SdfPath)
deriving DecidableEq

/-! ## The primitive adapter (`src/hydra/mesh.cpp`) -/

/-- Host render parameter `HdMoonshineRenderParam`: the engine context and the
material used for every geometry. -/
structure HdMoonshineRenderParam where
  _moonshine : HdMoonshine
  _material : MaterialHandle

/-- Data members of `HdMoonshineMesh`, together with the path returned by `GetId()`. -/
structure HdMoonshineMesh (R : Type) where
  id : SdfPath
  _transform : GfMatrix4f R
  _instancesTransforms : List (GfMatrix4f R)
  _instances : List InstanceHandle
  _initialized : Bool

/-- Modelled from the spec: the member declarations of `mesh.hpp` are not among
the sources.  The constructor `HdMoonshineMesh(id)` leaves both sequences empty
and the once-set initialized flag unset; `uninit` is the content of `_transform`
before the first transform read. -/
def HdMoonshineMesh.new {R : Type} (id : SdfPath) (uninit : GfMatrix4f R) : HdMoonshineMesh R :=
  { id := id, _transform := uninit, _instancesTransforms := [], _instances := [],
    _initialized := false }

/-- Everything one call of `Sync` reads from its environment. -/
structure SyncInput (R : Type) where
  /-- Value of `*dirtyBits` on entry. -/
  dirtyBits : HdDirtyBits
  /-- Result of `sceneDelegate->GetTransform(id)`. -/
  transform : GfMatrix4f R
  /-- Result of `GetInstancerId().IsEmpty()` on entry. -/
  instancerIdEmpty : Bool
  /-- Result of `ComputeInstanceTransforms(id)` of the instancer. -/
  instanceTransforms : List (GfMatrix4f R)
  /-- Result of `sceneDelegate->Get(id, HdTokens->points)`. -/
  points : List (F32x3 R)
  /-- Result of `meshUtil.ComputeTriangleIndices`. -/
  indices : List U32x3
  /-- Handle the engine returns from `HdMoonshineCreateMesh`. -/
  meshHandle : MeshHandle
  /-- Handle the engine returns from the `i`-th `HdMoonshineCreateInstance` of this call. -/
  instanceHandle : Nat → InstanceHandle

/-- What one call of `Sync` leaves behind: the adapter, `*dirtyBits`, and the
effects it had, in order. -/
structure SyncResult (R : Type) where
  mesh : HdMoonshineMesh R
  dirtyBits : HdDirtyBits
  events : List (Event R)

/-- `HdMoonshineMesh::GetInitialDirtyBitsMask` (mesh.cpp 15-19). -/
def GetInitialDirtyBitsMask (ct : HdChangeTracker) : HdDirtyBits :=
  ct.DirtyPoints ||| ct.DirtyTransform ||| ct.DirtyInstancer

/-- `HdMoonshineMesh::_PropagateDirtyBits` (mesh.cpp 21-23). -/
def _PropagateDirtyBits (bits : HdDirtyBits) : HdDirtyBits := bits

/-- The `Mat3x4` literal of the create-instance loop (mesh.cpp 83-88). -/
def createInstanceMatrix {R : Type} [Add R] [Mul R] (_transform it : GfMatrix4f R) : Mat3x4 R :=
  let instanceTransform := GfMatrix4f.mul _transform it
  { x := { x := instanceTransform 0 0, y := instanceTransform 1 0,
           z := instanceTransform 2 0, w := instanceTransform 3 0 },
    y := { x := instanceTransform 0 1, y := instanceTransform 1 1,
           z := instanceTransform 2 1, w := instanceTransform 3 1 },
    z := { x := instanceTransform 0 2, y := instanceTransform 1 2,
           z := instanceTransform 2 2, w := instanceTransform 3 2 } }

/-- The `Mat3x4` literal of the transform-update loop (mesh.cpp 95-100). -/
def setTransformMatrix {R : Type} [Add R] [Mul R] (_transform it : GfMatrix4f R) : Mat3x4 R :=
  let instanceTransform := GfMatrix4f.mul _transform it
  { x := { x := instanceTransform 0 0, y := instanceTransform 1 0,
           z := instanceTransform 2 0, w := instanceTransform 3 0 },
    y := { x := instanceTransform 0 1, y := instanceTransform 1 1,
           z := instanceTransform 2 1, w := instanceTransform 3 1 },
    z := { x := instanceTransform 0 2, y := instanceTransform 1 2,
           z := instanceTransform 2 2, w := instanceTransform 3 2 } }

/-- The loop of mesh.cpp 82-90, started at index `i` over the transforms still
to visit: the engine calls it issues and the handles it pushes on `_instances`. -/
def createInstanceLoop {R : Type} [Add R] [Mul R] (msne : HdMoonshine)
    (_transform : GfMatrix4f R) (geometry : Geometry) (ret : Nat → InstanceHandle) :
    Nat → List (GfMatrix4f R) → List (Event R) × List InstanceHandle
  | _, [] => ([], [])
  | i, it :: rest =>
    let matrix := createInstanceMatrix _transform it
    let r := createInstanceLoop msne _transform geometry ret (i + 1) rest
    (Event.HdMoonshineCreateInstance msne matrix geometry 1 (ret i) :: r.1, ret i :: r.2)

/-- The loop of mesh.cpp 94-102, started at index `i` over the transforms still
to visit; `_instances[i]` is read with `List` lookup. -/
def setTransformLoop {R : Type} [Add R] [Mul R] (msne : HdMoonshine)
    (_transform : GfMatrix4f R) (_instances : List InstanceHandle) :
    Nat → List (GfMatrix4f R) → List (Event R)
  | _, [] => []
  | i, it :: rest =>
    let matrix := setTransformMatrix _transform it
    Event.HdMoonshineSetInstanceTransform msne (_instances.get? i) matrix
      :: setTransformLoop msne _transform _instances (i + 1) rest

/-- The content of `_instancesTransforms` after mesh.cpp 47-56: the identity alone
when the instancer id is empty, else the transforms the instancer computes. -/
def recomputeInstanceTransforms {R : Type} [Zero R] [One R] (inp : SyncInput R) :
    List (GfMatrix4f R) :=
  if inp.instancerIdEmpty then [GfMatrix4f.diag 1] else inp.instanceTransforms

/-- The transform step of `Sync` (mesh.cpp 36-39): the new `_transform` and the
dirty bits after it. -/
def syncTransform {R : Type} (ct : HdChangeTracker) (self : HdMoonshineMesh R)
    (inp : SyncInput R) : GfMatrix4f R × HdDirtyBits :=
  if ct.IsTransformDirty inp.dirtyBits then
    (inp.transform, clearBits inp.dirtyBits ct.DirtyTransform)
  else (self._transform, inp.dirtyBits)

/-- The instancer step of `Sync` (mesh.cpp 45-62), entered with dirty bits `bits`:
the new `_instancesTransforms`, the diagnostics reported, and the dirty bits
after it. -/
def syncInstancer {R : Type} [Zero R] [One R] (ct : HdChangeTracker)
    (self : HdMoonshineMesh R) (inp : SyncInput R) (bits : HdDirtyBits) :
    List (GfMatrix4f R) × List (Event R) × HdDirtyBits :=
  if ct.IsInstancerDirty bits then
    let old_len := self._instancesTransforms.length
    let its : List (GfMatrix4f R) := recomputeInstanceTransforms inp
    let new_len := its.length
    let err : List (Event R) :=
      if self._initialized && old_len != new_len then
        [Event.changedInstanceCountError self.id]
      else []
    (its, err, clearBits bits ct.DirtyInstancer)
  else (self._instancesTransforms, [], bits)

/-- The upload-or-update step of `Sync` (mesh.cpp 64-103), entered with the
already updated `_transform` and `_instancesTransforms` and dirty bits `bits`:
the new `_instances`, the engine calls issued, and the dirty bits after it. -/
def syncGeometry {R : Type} [Add R] [Mul R] (ct : HdChangeTracker)
    (renderParam : HdMoonshineRenderParam) (self : HdMoonshineMesh R) (inp : SyncInput R)
    (transform_changed : Bool) (_transform : GfMatrix4f R)
    (_instancesTransforms : List (GfMatrix4f R)) (bits : HdDirtyBits) :
    List InstanceHandle × List (Event R) × HdDirtyBits :=
  let msne := renderParam._moonshine
  if !self._initialized then
    if ct.IsPrimvarDirtyPoints bits then
      let mesh := inp.meshHandle
      let geometry : Geometry :=
        { mesh := mesh, material := renderParam._material, sampled := false }
      let loop :=
        createInstanceLoop msne _transform geometry inp.instanceHandle 0 _instancesTransforms
      (self._instances ++ loop.2,
       Event.HdMoonshineCreateMesh msne inp.points inp.points.length inp.indices
         inp.indices.length mesh :: loop.1,
       clearBits bits ct.DirtyPoints)
    else (self._instances, [], bits)
  else if transform_changed then
    (self._instances,
     setTransformLoop msne _transform self._instances 0 _instancesTransforms, bits)
  else (self._instances, [], bits)

/-- The final check of `Sync` (mesh.cpp 106-108) on the dirty bits left. -/
def syncReport {R : Type} (ct : HdChangeTracker) (self : HdMoonshineMesh R)
    (bits : HdDirtyBits) : List (Event R) :=
  if !ct.IsClean bits then [Event.ignoredDirtyBitsError bits self.id] else []

/-- `HdMoonshineMesh::Sync` (mesh.cpp 27-109), as the sequence of its steps. -/
def Sync {R : Type} [Add R] [Mul R] [Zero R] [One R] (ct : HdChangeTracker)
    (renderParam : HdMoonshineRenderParam) (self : HdMoonshineMesh R) (inp : SyncInput R) :
    SyncResult R :=
  -- line 34
  let transform_changed :=
    ct.IsTransformDirty inp.dirtyBits || ct.IsInstancerDirty inp.dirtyBits
  -- lines 36-39
  let s1 := syncTransform ct self inp
  -- lines 45-62
  let s2 := syncInstancer ct self inp s1.2
  -- lines 64-103
  let s3 := syncGeometry ct renderParam self inp transform_changed s1.1 s2.1 s2.2.2
  -- lines 105-108
  let err := syncReport ct self s3.2.2
  { mesh :=
      { id := self.id, _transform := s1.1, _instancesTransforms := s2.1,
        _instances := s3.1, _initialized := true },
    dirtyBits := s3.2.2,
    events := s2.2.1 ++ s3.2.1 ++ err }

/-- `HdMoonshineMesh::Finalize` (mesh.cpp 111-115): the engine calls it issues. -/
def Finalize {R : Type} (renderParam : HdMoonshineRenderParam) (self : HdMoonshineMesh R) :
    List (Event R) :=
  self._instances.map fun h => Event.HdMoonshineDestroyInstance renderParam._moonshine h

/-- A sequence of `Sync` calls on one adapter: the adapter after the last call
and the effects of all calls, in order. -/
def SyncAll {R : Type} [Add R] [Mul R] [Zero R] [One R] (ct : HdChangeTracker)
    (renderParam : HdMoonshineRenderParam) (self : HdMoonshineMesh R) :
    List (SyncInput R) → HdMoonshineMesh R × List (Event R)
  | [] => (self, [])
  | inp :: rest =>
    let r := Sync ct renderParam self inp
    let tl := SyncAll ct renderParam r.mesh rest
    (tl.1, r.events ++ tl.2)

/-! ## The delegate (`src/hydra/renderDelegate.cpp`) -/

/-- Data members of `HdMoonshineRenderDelegate` read by the functions below. -/
structure HdMoonshineRenderDelegate where
  _moonshine : HdMoonshine

/-- Host state primitive `HdSprim`. -/
structure HdSprim where
  id : SdfPath

/-- Host buffer primitive `HdBprim`. -/
structure HdBprim where
  id : SdfPath

/-- Host instancer `HdInstancer`. -/
structure HdInstancer where
  id : SdfPath

/-- `SUPPORTED_RPRIM_TYPES` (renderDelegate.cpp 6-8). -/
def SUPPORTED_RPRIM_TYPES : List TfToken := [HdPrimTypeTokens.mesh]

/-- `SUPPORTED_SPRIM_TYPES` (renderDelegate.cpp 10-11). -/
def SUPPORTED_SPRIM_TYPES : List TfToken := []

/-- `SUPPORTED_BPRIM_TYPES` (renderDelegate.cpp 13-14). -/
def SUPPORTED_BPRIM_TYPES : List TfToken := []

/-- `GetSupportedRprimTypes` (renderDelegate.cpp 36-39). -/
def HdMoonshineRenderDelegate.GetSupportedRprimTypes (_self : HdMoonshineRenderDelegate) :
    List TfToken := SUPPORTED_RPRIM_TYPES

/-- `GetSupportedSprimTypes` (renderDelegate.cpp 41-44). -/
def HdMoonshineRenderDelegate.GetSupportedSprimTypes (_self : HdMoonshineRenderDelegate) :
    List TfToken := SUPPORTED_SPRIM_TYPES

/-- `GetSupportedBprimTypes` (renderDelegate.cpp 46-49). -/
def HdMoonshineRenderDelegate.GetSupportedBprimTypes (_self : HdMoonshineRenderDelegate) :
    List TfToken := SUPPORTED_BPRIM_TYPES

/-- `CreateRprim` (renderDelegate.cpp 66-75); `none` is the null pointer and
`uninit` the content of the new adapter's `_transform`. -/
def HdMoonshineRenderDelegate.CreateRprim {R : Type} (_self : HdMoonshineRenderDelegate)
    (uninit : GfMatrix4f R) (typeId : TfToken) (rprimId : SdfPath) :
    Option (HdMoonshineMesh R) :=
  if typeId == HdPrimTypeTokens.mesh then
    some (HdMoonshineMesh.new rprimId uninit)
  else
    none

/-- `CreateSprim` (renderDelegate.cpp 81-84). -/
def HdMoonshineRenderDelegate.CreateSprim (_self : HdMoonshineRenderDelegate)
    (_typeId : TfToken) (_sprimId : SdfPath) : Option HdSprim := none

/-- `CreateFallbackSprim` (renderDelegate.cpp 86-89). -/
def HdMoonshineRenderDelegate.CreateFallbackSprim (_self : HdMoonshineRenderDelegate)
    (_typeId : TfToken) : Option HdSprim := none

/-- `CreateBprim` (renderDelegate.cpp 95-98). -/
def HdMoonshineRenderDelegate.CreateBprim (_self : HdMoonshineRenderDelegate)
    (_typeId : TfToken) (_bprimId : SdfPath) : Option HdBprim := none

/-- `CreateFallbackBprim` (renderDelegate.cpp 100-103). -/
def HdMoonshineRenderDelegate.CreateFallbackBprim (_self : HdMoonshineRenderDelegate)
    (_typeId : TfToken) : Option HdBprim := none

/-- `CreateInstancer` (renderDelegate.cpp 109-112). -/
def HdMoonshineRenderDelegate.CreateInstancer (_self : HdMoonshineRenderDelegate)
    (_id : SdfPath) : Option HdInstancer := none

/-! ## Reading event lists -/

/-- Handles returned by the create-mesh calls of an event list, in order. -/
def createdMeshes {R : Type} : List (Event R) → List MeshHandle
  | [] => []
  | Event.HdMoonshineCreateMesh _ _ _ _ _ ret :: rest => ret :: createdMeshes rest
  | _ :: rest => createdMeshes rest

/-- Handles returned by the create-instance calls of an event list, in order. -/
def createdInstances {R : Type} : List (Event R) → List InstanceHandle
  | [] => []
  | Event.HdMoonshineCreateInstance _ _ _ _ ret :: rest => ret :: createdInstances rest
  | _ :: rest => createdInstances rest

/-- Handles passed to the destroy-instance calls of an event list, in order. -/
def destroyedInstances {R : Type} : List (Event R) → List InstanceHandle
  | [] => []
  | Event.HdMoonshineDestroyInstance _ h :: rest => h :: destroyedInstances rest
  | _ :: rest => destroyedInstances rest

/-- Handles passed to the destroy-mesh calls of an event list, in order. -/
def destroyedMeshes {R : Type} : List (Event R) → List MeshHandle
  | [] => []
  | Event.HdMoonshineDestroyMesh _ h :: rest => h :: destroyedMeshes rest
  | _ :: rest => destroyedMeshes rest

/-- Whether an event is a call into the engine (and not a diagnostic). -/
def Event.isEngineCall {R : Type} : Event R → Bool
  | Event.changedInstanceCountError _ => false
  | Event.ignoredDirtyBitsError _ _ => false
  | _ => true

/-- The engine calls of an event list, in order. -/
def engineCalls {R : Type} (evs : List (Event R)) : List (Event R) :=
  evs.filter Event.isEngineCall

/-- Whether an event is the changed-instance-count coding error. -/
def Event.isChangedInstanceCount {R : Type} : Event R → Bool
  | Event.changedInstanceCountError _ => true
  | _ => false

/-- Whether an event is the ignored-dirty-bits coding error. -/
def Event.isIgnoredDirtyBits {R : Type} : Event R → Bool
  | Event.ignoredDirtyBitsError _ _ => true
  | _ => false

/-- Matrices handed to the engine by the create-instance and set-instance-transform
calls of an event list, in order. -/
def engineMatrices {R : Type} : List (Event R) → List (Mat3x4 R)
  | [] => []
  | Event.HdMoonshineCreateInstance _ m _ _ _ :: rest => m :: engineMatrices rest
  | Event.HdMoonshineSetInstanceTransform _ _ m :: rest => m :: engineMatrices rest
  | _ :: rest => engineMatrices rest

/-- Handles read from `_instances` by the set-instance-transform calls of an event
list, in order; `none` marks a read past the end of `_instances`. -/
def updateReads {R : Type} : List (Event R) → List (Option InstanceHandle)
  | [] => []
  | Event.HdMoonshineSetInstanceTransform _ h _ :: rest => h :: updateReads rest
  | _ :: rest => updateReads rest

/-- Engine matrix with entry `f r c` at row `r` (x, y, z) and column `c` (x, y, z, w). -/
def Mat3x4.ofFn {R : Type} (f : Fin 3 → Fin 4 → R) : Mat3x4 R :=
  { x := { x := f 0 0, y := f 0 1, z := f 0 2, w := f 0 3 },
    y := { x := f 1 0, y := f 1 1, z := f 1 2, w := f 1 3 },
    z := { x := f 2 0, y := f 2 1, z := f 2 2, w := f 2 3 } }

/-- The engine matrix as the specification words it, for a 4x4 matrix `M`: row `r`
and column `c` hold `M[c][r]`, so the fourth column of `M` is not used. -/
def specEngineMatrix {R : Type} (M : GfMatrix4f R) : Mat3x4 R :=
  Mat3x4.ofFn fun r c => M c r.castSucc

/-! ## Concrete inputs -/

/-- A render parameter with engine context 1 and material 2. -/
def rp0 : HdMoonshineRenderParam := { _moonshine := ⟨1⟩, _material := ⟨2⟩ }

/-- A 4x4 integer matrix with sixteen different entries. -/
def m16 : GfMatrix4f Int := fun i j => 4 * (i.val : Int) + (j.val : Int) + 1

/-- A freshly constructed adapter over the integers. -/
def fresh0 : HdMoonshineMesh Int := HdMoonshineMesh.new "/prim" (GfMatrix4f.diag 1)

/-- A call of `Sync` with the given dirty bits, instancer-id emptiness and
instancer result; the engine answers with mesh handle 7 and instance handles
100, 101, ... -/
def call0 (bits : HdDirtyBits) (noInstancer : Bool) (its : List (GfMatrix4f Int)) :
    SyncInput Int :=
  { dirtyBits := bits, transform := m16, instancerIdEmpty := noInstancer,
    instanceTransforms := its, points := [], indices := [], meshHandle := ⟨7⟩,
    instanceHandle := fun i => ⟨100 + i⟩ }

/-- The initial dirty mask for the concrete host constants. -/
def initMask0 : HdDirtyBits := GetInitialDirtyBitsMask hostBits

/-- The adapter `fresh0` after a first `Sync` with the initial dirty mask and an
empty instancer id. -/
def synced0 : HdMoonshineMesh Int :=
  (Sync hostBits rp0 fresh0 (call0 initMask0 true [])).mesh

/-! ## Bit lemmas -/

theorem testBit_bitNot32 {m : Nat} (hm : m < 2 ^ 32) (i : Nat) :
    (bitNot32 m).testBit i = (decide (i < 32) && !m.testBit i) := by
  have h := Nat.testBit_two_pow_sub_succ hm i
  have e : bitNot32 m = 2 ^ 32 - (m + 1) := by unfold bitNot32; omega
  rw [e]; exact h

theorem testBit_clearBits {m : Nat} (hm : m < 2 ^ 32) (b i : Nat) :
    (clearBits b m).testBit i = (b.testBit i && (decide (i < 32) && !m.testBit i)) := by
  unfold clearBits
  rw [Nat.testBit_land, testBit_bitNot32 hm]

theorem lt_of_testBit_word {m i : Nat} (hm : m < 2 ^ 32) (h : m.testBit i = true) : i < 32 := by
  by_contra hi
  have h1 : m < 2 ^ i :=
    lt_of_lt_of_le hm (Nat.pow_le_pow_right (by decide) (Nat.le_of_not_lt hi))
  rw [Nat.testBit_lt_two_pow h1] at h
  exact Bool.noConfusion h

theorem testBit_of_land_eq_zero {a b : Nat} (h : a &&& b = 0) (i : Nat) :
    (a.testBit i && b.testBit i) = false := by
  rw [← Nat.testBit_land, h, Nat.zero_testBit]

theorem clearBits_testBit_le (b m i : Nat) (h : (clearBits b m).testBit i = true) :
    b.testBit i = true := by
  unfold clearBits at h
  rw [Nat.testBit_land] at h
  exact (Bool.and_eq_true_iff.mp h).1

theorem clearBits_land_self {m : Nat} (hm : m < 2 ^ 32) (b : Nat) :
    clearBits b m &&& m = 0 := by
  apply Nat.eq_of_testBit_eq
  intro i
  rw [Nat.testBit_land, testBit_clearBits hm, Nat.zero_testBit]
  cases b.testBit i <;> cases m.testBit i <;> simp

theorem clearBits_land_of_land_eq_zero (b m k : Nat) (h : b &&& k = 0) :
    clearBits b m &&& k = 0 := by
  apply Nat.eq_of_testBit_eq
  intro i
  have h1 := testBit_of_land_eq_zero h i
  unfold clearBits
  rw [Nat.testBit_land, Nat.testBit_land, Nat.zero_testBit]
  cases hb : b.testBit i <;> cases hk : k.testBit i <;> simp_all

theorem clearBits_land_of_disjoint {m k : Nat} (hm : m < 2 ^ 32) (hk : k < 2 ^ 32)
    (h : m &&& k = 0) (b : Nat) : clearBits b m &&& k = b &&& k := by
  apply Nat.eq_of_testBit_eq
  intro i
  have h1 := testBit_of_land_eq_zero h i
  rw [Nat.testBit_land, Nat.testBit_land, testBit_clearBits hm]
  cases hkb : k.testBit i
  · simp
  · have hi : i < 32 := lt_of_testBit_word hk hkb
    cases hmb : m.testBit i <;> simp_all

/-! ## Dirty-bit tests after the clears of `Sync` -/

theorem IsInstancerDirty_clear_transform {ct : HdChangeTracker} (wf : ct.WellFormed)
    (b : HdDirtyBits) :
    ct.IsInstancerDirty (clearBits b ct.DirtyTransform) = ct.IsInstancerDirty b := by
  unfold HdChangeTracker.IsInstancerDirty
  rw [clearBits_land_of_disjoint wf.transform_lt wf.instancer_lt wf.transform_instancer]

theorem IsPrimvarDirtyPoints_clear_transform {ct : HdChangeTracker} (wf : ct.WellFormed)
    (b : HdDirtyBits) :
    ct.IsPrimvarDirtyPoints (clearBits b ct.DirtyTransform) = ct.IsPrimvarDirtyPoints b := by
  unfold HdChangeTracker.IsPrimvarDirtyPoints
  rw [clearBits_land_of_disjoint wf.transform_lt wf.points_lt wf.transform_points]

theorem IsPrimvarDirtyPoints_clear_instancer {ct : HdChangeTracker} (wf : ct.WellFormed)
    (b : HdDirtyBits) :
    ct.IsPrimvarDirtyPoints (clearBits b ct.DirtyInstancer) = ct.IsPrimvarDirtyPoints b := by
  unfold HdChangeTracker.IsPrimvarDirtyPoints
  rw [clearBits_land_of_disjoint wf.instancer_lt wf.points_lt wf.instancer_points]

/-! ## Event lists of the loops -/

theorem createdMeshes_append {R : Type} (a b : List (Event R)) :
    createdMeshes (a ++ b) = createdMeshes a ++ createdMeshes b := by
  induction a with
  | nil => rfl
  | cons e a ih => cases e <;> simp [createdMeshes, ih]

theorem createdInstances_append {R : Type} (a b : List (Event R)) :
    createdInstances (a ++ b) = createdInstances a ++ createdInstances b := by
  induction a with
  | nil => rfl
  | cons e a ih => cases e <;> simp [createdInstances, ih]

theorem engineMatrices_append {R : Type} (a b : List (Event R)) :
    engineMatrices (a ++ b) = engineMatrices a ++ engineMatrices b := by
  induction a with
  | nil => rfl
  | cons e a ih => cases e <;> simp [engineMatrices, ih]

theorem createInstanceLoop_createdMeshes {R : Type} [Add R] [Mul R] (msne : HdMoonshine)
    (t : GfMatrix4f R) (g : Geometry) (ret : Nat → InstanceHandle) (i : Nat)
    (its : List (GfMatrix4f R)) :
    createdMeshes (createInstanceLoop msne t g ret i its).1 = [] := by
  induction its generalizing i with
  | nil => rfl
  | cons it rest ih => simp [createInstanceLoop, createdMeshes, ih]

theorem createInstanceLoop_createdInstances {R : Type} [Add R] [Mul R] (msne : HdMoonshine)
    (t : GfMatrix4f R) (g : Geometry) (ret : Nat → InstanceHandle) (i : Nat)
    (its : List (GfMatrix4f R)) :
    createdInstances (createInstanceLoop msne t g ret i its).1
      = (createInstanceLoop msne t g ret i its).2 := by
  induction its generalizing i with
  | nil => rfl
  | cons it rest ih => simp [createInstanceLoop, createdInstances, ih]

theorem createInstanceLoop_length {R : Type} [Add R] [Mul R] (msne : HdMoonshine)
    (t : GfMatrix4f R) (g : Geometry) (ret : Nat → InstanceHandle) (i : Nat)
    (its : List (GfMatrix4f R)) :
    (createInstanceLoop msne t g ret i its).2.length = its.length := by
  induction its generalizing i with
  | nil => rfl
  | cons it rest ih => simp [createInstanceLoop, ih]

theorem createInstanceLoop_engineMatrices {R : Type} [Add R] [Mul R] (msne : HdMoonshine)
    (t : GfMatrix4f R) (g : Geometry) (ret : Nat → InstanceHandle) (i : Nat)
    (its : List (GfMatrix4f R)) :
    engineMatrices (createInstanceLoop msne t g ret i its).1
      = its.map fun it => createInstanceMatrix t it := by
  induction its generalizing i with
  | nil => rfl
  | cons it rest ih => simp [createInstanceLoop, engineMatrices, ih]

theorem createInstanceLoop_engineCalls {R : Type} [Add R] [Mul R] (msne : HdMoonshine)
    (t : GfMatrix4f R) (g : Geometry) (ret : Nat → InstanceHandle) (i : Nat)
    (its : List (GfMatrix4f R)) :
    engineCalls (createInstanceLoop msne t g ret i its).1
      = (createInstanceLoop msne t g ret i its).1 := by
  induction its generalizing i with
  | nil => rfl
  | cons it rest ih =>
    have ih1 := ih (i + 1)
    unfold engineCalls at ih1 ⊢
    simp [createInstanceLoop, Event.isEngineCall, ih1]

theorem setTransformLoop_createdMeshes {R : Type} [Add R] [Mul R] (msne : HdMoonshine)
    (t : GfMatrix4f R) (hs : List InstanceHandle) (i : Nat) (its : List (GfMatrix4f R)) :
    createdMeshes (setTransformLoop msne t hs i its) = [] := by
  induction its generalizing i with
  | nil => rfl
  | cons it rest ih => simp [setTransformLoop, createdMeshes, ih]

theorem setTransformLoop_createdInstances {R : Type} [Add R] [Mul R] (msne : HdMoonshine)
    (t : GfMatrix4f R) (hs : List InstanceHandle) (i : Nat) (its : List (GfMatrix4f R)) :
    createdInstances (setTransformLoop msne t hs i its) = [] := by
  induction its generalizing i with
  | nil => rfl
  | cons it rest ih => simp [setTransformLoop, createdInstances, ih]

theorem setTransformLoop_engineMatrices {R : Type} [Add R] [Mul R] (msne : HdMoonshine)
    (t : GfMatrix4f R) (hs : List InstanceHandle) (i : Nat) (its : List (GfMatrix4f R)) :
    engineMatrices (setTransformLoop msne t hs i its)
      = its.map fun it => setTransformMatrix t it := by
  induction its generalizing i with
  | nil => rfl
  | cons it rest ih => simp [setTransformLoop, engineMatrices, ih]

theorem setTransformLoop_engineCalls {R : Type} [Add R] [Mul R] (msne : HdMoonshine)
    (t : GfMatrix4f R) (hs : List InstanceHandle) (i : Nat) (its : List (GfMatrix4f R)) :
    engineCalls (setTransformLoop msne t hs i its) = setTransformLoop msne t hs i its := by
  induction its generalizing i with
  | nil => rfl
  | cons it rest ih =>
    have ih1 := ih (i + 1)
    unfold engineCalls at ih1 ⊢
    simp [setTransformLoop, Event.isEngineCall, ih1]

/-- C4: `CreateRprim` returns an adapter exactly for the mesh type token, which is
exactly membership in `GetSupportedRprimTypes`; the supported Sprim and Bprim
lists are empty; `CreateSprim`, `CreateFallbackSprim`, `CreateBprim`,
`CreateFallbackBprim` and `CreateInstancer` return null on every input. -/
theorem C4_only_mesh_supported {R : Type} (d : HdMoonshineRenderDelegate)
    (uninit : GfMatrix4f R) (t : TfToken) (id : SdfPath) :
    ((d.CreateRprim uninit t id).isSome = true ↔ t = HdPrimTypeTokens.mesh)
    ∧ (t = HdPrimTypeTokens.mesh ↔ t ∈ d.GetSupportedRprimTypes)
    ∧ (d.CreateRprim uninit HdPrimTypeTokens.mesh id
        = some (HdMoonshineMesh.new id uninit))
    ∧ d.GetSupportedSprimTypes = []
    ∧ d.GetSupportedBprimTypes = []
    ∧ d.CreateSprim t id = none
    ∧ d.CreateFallbackSprim t = none
    ∧ d.CreateBprim t id = none
    ∧ d.CreateFallbackBprim t = none
    ∧ d.CreateInstancer id = none := by
  refine ⟨?_, ?_, ?_, rfl, rfl, rfl, rfl, rfl, rfl, rfl⟩
  · unfold HdMoonshineRenderDelegate.CreateRprim
    by_cases h : t = HdPrimTypeTokens.mesh
    · simp [h]
    · simp [h]
  · simp [HdMoonshineRenderDelegate.GetSupportedRprimTypes, SUPPORTED_RPRIM_TYPES]
  · simp [HdMoonshineRenderDelegate.CreateRprim]

/-! ## The steps of `Sync` -/

theorem syncInstancer_projections {R : Type} [Zero R] [One R] (ct : HdChangeTracker)
    (self : HdMoonshineMesh R) (inp : SyncInput R) (bits : HdDirtyBits) :
    createdMeshes (syncInstancer ct self inp bits).2.1 = []
    ∧ createdInstances (syncInstancer ct self inp bits).2.1 = []
    ∧ engineMatrices (syncInstancer ct self inp bits).2.1 = []
    ∧ engineCalls (syncInstancer ct self inp bits).2.1 = [] := by
  unfold syncInstancer
  by_cases h : ct.IsInstancerDirty bits = true
  · by_cases h2 : (self._initialized
        && self._instancesTransforms.length != (recomputeInstanceTransforms inp).length) = true
    · simp only [h, h2, if_true]
      exact ⟨rfl, rfl, rfl, rfl⟩
    · simp only [h, h2, if_true, if_false]
      exact ⟨rfl, rfl, rfl, rfl⟩
  · simp only [h, if_false]
    exact ⟨rfl, rfl, rfl, rfl⟩

theorem syncReport_projections {R : Type} (ct : HdChangeTracker)
    (self : HdMoonshineMesh R) (bits : HdDirtyBits) :
    createdMeshes (syncReport ct self bits) = []
    ∧ createdInstances (syncReport ct self bits) = []
    ∧ engineMatrices (syncReport ct self bits) = []
    ∧ engineCalls (syncReport ct self bits) = [] := by
  unfold syncReport
  by_cases h : (!ct.IsClean bits) = true
  · simp only [h, if_true]
    exact ⟨rfl, rfl, rfl, rfl⟩
  · simp only [h, if_false]
    exact ⟨rfl, rfl, rfl, rfl⟩

theorem syncGeometry_of_initialized {R : Type} [Add R] [Mul R] (ct : HdChangeTracker)
    (rp : HdMoonshineRenderParam) (self : HdMoonshineMesh R) (inp : SyncInput R)
    (tc : Bool) (t : GfMatrix4f R) (its : List (GfMatrix4f R)) (bits : HdDirtyBits)
    (hinit : self._initialized = true) :
    syncGeometry ct rp self inp tc t its bits
      = (self._instances,
         if tc then setTransformLoop rp._moonshine t self._instances 0 its else [],
         bits) := by
  unfold syncGeometry
  cases tc <;> simp [hinit]

theorem syncGeometry_of_uninitialized {R : Type} [Add R] [Mul R] (ct : HdChangeTracker)
    (rp : HdMoonshineRenderParam) (self : HdMoonshineMesh R) (inp : SyncInput R)
    (tc : Bool) (t : GfMatrix4f R) (its : List (GfMatrix4f R)) (bits : HdDirtyBits)
    (hinit : self._initialized = false) :
    syncGeometry ct rp self inp tc t its bits
      = if ct.IsPrimvarDirtyPoints bits then
          (self._instances
             ++ (createInstanceLoop rp._moonshine t
                  { mesh := inp.meshHandle, material := rp._material, sampled := false }
                  inp.instanceHandle 0 its).2,
           Event.HdMoonshineCreateMesh rp._moonshine inp.points inp.points.length
             inp.indices inp.indices.length inp.meshHandle
             :: (createInstanceLoop rp._moonshine t
                  { mesh := inp.meshHandle, material := rp._material, sampled := false }
                  inp.instanceHandle 0 its).1,
           clearBits bits ct.DirtyPoints)
        else (self._instances, [], bits) := by
  unfold syncGeometry
  simp [hinit]

theorem syncTransform_pointsDirty {R : Type} {ct : HdChangeTracker}
    (wf : ct.WellFormed) (self : HdMoonshineMesh R) (inp : SyncInput R) :
    ct.IsPrimvarDirtyPoints (syncTransform ct self inp).2
      = ct.IsPrimvarDirtyPoints inp.dirtyBits := by
  unfold syncTransform
  split
  · exact IsPrimvarDirtyPoints_clear_transform wf _
  · rfl

theorem syncInstancer_pointsDirty {R : Type} [Zero R] [One R] {ct : HdChangeTracker}
    (wf : ct.WellFormed) (self : HdMoonshineMesh R) (inp : SyncInput R) (bits : HdDirtyBits) :
    ct.IsPrimvarDirtyPoints (syncInstancer ct self inp bits).2.2
      = ct.IsPrimvarDirtyPoints bits := by
  unfold syncInstancer
  split
  · exact IsPrimvarDirtyPoints_clear_instancer wf _
  · rfl

theorem Sync_pointsDirty_at_upload {R : Type} [Zero R] [One R] {ct : HdChangeTracker}
    (wf : ct.WellFormed) (self : HdMoonshineMesh R) (inp : SyncInput R) :
    ct.IsPrimvarDirtyPoints (syncInstancer ct self inp (syncTransform ct self inp).2).2.2
      = ct.IsPrimvarDirtyPoints inp.dirtyBits := by
  rw [syncInstancer_pointsDirty wf, syncTransform_pointsDirty wf]

theorem Sync_initialized {R : Type} [Add R] [Mul R] [Zero R] [One R] (ct : HdChangeTracker)
    (rp : HdMoonshineRenderParam) (self : HdMoonshineMesh R) (inp : SyncInput R) :
    (Sync ct rp self inp).mesh._initialized = true := rfl

theorem Sync_instances_eq_append_created {R : Type} [Add R] [Mul R] [Zero R] [One R]
    (ct : HdChangeTracker) (rp : HdMoonshineRenderParam) (self : HdMoonshineMesh R)
    (inp : SyncInput R) :
    (Sync ct rp self inp).mesh._instances
      = self._instances ++ createdInstances (Sync ct rp self inp).events := by
  have hI := syncInstancer_projections ct self inp (syncTransform ct self inp).2
  cases hinit : self._initialized
  · simp only [Sync, syncGeometry_of_uninitialized _ _ _ _ _ _ _ _ hinit,
      createdInstances_append, hI.2.1, (syncReport_projections ct self _).2.1,
      List.nil_append, List.append_nil]
    split
    · simp [createdInstances, createInstanceLoop_createdInstances]
    · simp [createdInstances]
  · simp only [Sync, syncGeometry_of_initialized _ _ _ _ _ _ _ _ hinit,
      createdInstances_append, hI.2.1, (syncReport_projections ct self _).2.1,
      List.nil_append, List.append_nil]
    split <;> simp [createdInstances, setTransformLoop_createdInstances]

theorem Sync_createdMeshes_of_initialized {R : Type} [Add R] [Mul R] [Zero R] [One R]
    (ct : HdChangeTracker) (rp : HdMoonshineRenderParam) (self : HdMoonshineMesh R)
    (inp : SyncInput R) (hinit : self._initialized = true) :
    createdMeshes (Sync ct rp self inp).events = [] := by
  have hI := syncInstancer_projections ct self inp (syncTransform ct self inp).2
  simp only [Sync, syncGeometry_of_initialized _ _ _ _ _ _ _ _ hinit, createdMeshes_append,
    hI.1, (syncReport_projections ct self _).1]
  split <;> simp [setTransformLoop_createdMeshes, createdMeshes]

theorem Sync_createdMeshes_of_uninitialized {R : Type} [Add R] [Mul R] [Zero R] [One R]
    {ct : HdChangeTracker} (wf : ct.WellFormed) (rp : HdMoonshineRenderParam)
    (self : HdMoonshineMesh R) (inp : SyncInput R) (hinit : self._initialized = false) :
    createdMeshes (Sync ct rp self inp).events
      = if ct.IsPrimvarDirtyPoints inp.dirtyBits then [inp.meshHandle] else [] := by
  have hI := syncInstancer_projections ct self inp (syncTransform ct self inp).2
  simp only [Sync, syncGeometry_of_uninitialized _ _ _ _ _ _ _ _ hinit, createdMeshes_append,
    hI.1, (syncReport_projections ct self _).1, Sync_pointsDirty_at_upload wf]
  split <;> simp [createdMeshes, createInstanceLoop_createdMeshes]

theorem SyncAll_createdMeshes_of_initialized {R : Type} [Add R] [Mul R] [Zero R] [One R]
    (ct : HdChangeTracker) (rp : HdMoonshineRenderParam) (inputs : List (SyncInput R))
    (self : HdMoonshineMesh R) (hinit : self._initialized = true) :
    createdMeshes (SyncAll ct rp self inputs).2 = [] := by
  induction inputs generalizing self with
  | nil => rfl
  | cons inp rest ih =>
    simp only [SyncAll, createdMeshes_append,
      Sync_createdMeshes_of_initialized ct rp self inp hinit,
      ih (Sync ct rp self inp).mesh (Sync_initialized ct rp self inp), List.append_nil]

theorem SyncAll_instances_eq_append_created {R : Type} [Add R] [Mul R] [Zero R] [One R]
    (ct : HdChangeTracker) (rp : HdMoonshineRenderParam) (inputs : List (SyncInput R))
    (self : HdMoonshineMesh R) :
    (SyncAll ct rp self inputs).1._instances
      = self._instances ++ createdInstances (SyncAll ct rp self inputs).2 := by
  induction inputs generalizing self with
  | nil => simp [SyncAll, createdInstances]
  | cons inp rest ih =>
    simp only [SyncAll, createdInstances_append]
    rw [ih, Sync_instances_eq_append_created, List.append_assoc]

theorem hostBits_wellFormed : hostBits.WellFormed :=
  { points_lt := by decide, transform_lt := by decide, instancer_lt := by decide,
    points_ne := by decide, transform_ne := by decide, instancer_ne := by decide,
    transform_instancer := by decide, transform_points := by decide,
    instancer_points := by decide }

theorem Sync_lengths_of_uninitialized {R : Type} [Add R] [Mul R] [Zero R] [One R]
    {ct : HdChangeTracker} (wf : ct.WellFormed) (rp : HdMoonshineRenderParam)
    (self : HdMoonshineMesh R) (inp : SyncInput R) (hinit : self._initialized = false)
    (hp : ct.IsPrimvarDirtyPoints inp.dirtyBits = true) :
    (Sync ct rp self inp).mesh._instances.length
      = self._instances.length + (Sync ct rp self inp).mesh._instancesTransforms.length := by
  simp only [Sync, syncGeometry_of_uninitialized _ _ _ _ _ _ _ _ hinit,
    Sync_pointsDirty_at_upload wf, hp, if_true, List.length_append,
    createInstanceLoop_length]

theorem Sync_lengths_of_initialized {R : Type} [Add R] [Mul R] [Zero R] [One R]
    (ct : HdChangeTracker) (rp : HdMoonshineRenderParam) (self : HdMoonshineMesh R)
    (inp : SyncInput R) (hinit : self._initialized = true)
    (hlen : self._instances.length = self._instancesTransforms.length)
    (hne : ∀ e ∈ (Sync ct rp self inp).events, e.isChangedInstanceCount = false) :
    (Sync ct rp self inp).mesh._instances.length
      = (Sync ct rp self inp).mesh._instancesTransforms.length := by
  have h1 : (Sync ct rp self inp).mesh._instances = self._instances := by
    simp only [Sync, syncGeometry_of_initialized _ _ _ _ _ _ _ _ hinit]
  rw [h1, hlen]
  have hne2 : ∀ e ∈ (syncInstancer ct self inp (syncTransform ct self inp).2).2.1,
      e.isChangedInstanceCount = false := by
    intro e he
    apply hne e
    simp only [Sync, List.mem_append]
    exact Or.inl (Or.inl he)
  show _ = (syncInstancer ct self inp (syncTransform ct self inp).2).1.length
  revert hne2
  unfold syncInstancer
  split
  · intro hne2
    by_cases hl : self._instancesTransforms.length = (recomputeInstanceTransforms inp).length
    · exact hl
    · have h3 := hne2 (Event.changedInstanceCountError self.id) (by simp [hinit, hl])
      exact Bool.noConfusion h3
  · intro _
    rfl

theorem SyncAll_lengths_of_initialized {R : Type} [Add R] [Mul R] [Zero R] [One R]
    (ct : HdChangeTracker) (rp : HdMoonshineRenderParam) (inputs : List (SyncInput R))
    (self : HdMoonshineMesh R) (hinit : self._initialized = true)
    (hlen : self._instances.length = self._instancesTransforms.length)
    (hne : ∀ e ∈ (SyncAll ct rp self inputs).2, e.isChangedInstanceCount = false) :
    (SyncAll ct rp self inputs).1._initialized = true
    ∧ (SyncAll ct rp self inputs).1._instances.length
        = (SyncAll ct rp self inputs).1._instancesTransforms.length := by
  induction inputs generalizing self with
  | nil => exact ⟨hinit, hlen⟩
  | cons inp rest ih =>
    simp only [SyncAll] at hne ⊢
    apply ih _ (Sync_initialized ct rp self inp)
    · apply Sync_lengths_of_initialized ct rp self inp hinit hlen
      intro e he
      exact hne e (List.mem_append_left _ he)
    · intro e he
      exact hne e (List.mem_append_right _ he)

/-! ## Dirty bits left by the steps -/

theorem land_eq_zero_of_bne_false {a m : Nat} (h : ((a &&& m) != 0) = false) : a &&& m = 0 := by
  simpa using h

theorem syncTransform_bits {R : Type} (ct : HdChangeTracker) (self : HdMoonshineMesh R)
    (inp : SyncInput R) :
    (syncTransform ct self inp).2
      = if ct.IsTransformDirty inp.dirtyBits then clearBits inp.dirtyBits ct.DirtyTransform
        else inp.dirtyBits := by
  unfold syncTransform
  split <;> rfl

theorem syncInstancer_bits {R : Type} [Zero R] [One R] (ct : HdChangeTracker)
    (self : HdMoonshineMesh R) (inp : SyncInput R) (bits : HdDirtyBits) :
    (syncInstancer ct self inp bits).2.2
      = if ct.IsInstancerDirty bits then clearBits bits ct.DirtyInstancer else bits := by
  unfold syncInstancer
  split <;> rfl

theorem syncGeometry_bits {R : Type} [Add R] [Mul R] (ct : HdChangeTracker)
    (rp : HdMoonshineRenderParam) (self : HdMoonshineMesh R) (inp : SyncInput R)
    (tc : Bool) (t : GfMatrix4f R) (its : List (GfMatrix4f R)) (bits : HdDirtyBits) :
    (syncGeometry ct rp self inp tc t its bits).2.2
      = if (!self._initialized && ct.IsPrimvarDirtyPoints bits) then
          clearBits bits ct.DirtyPoints
        else bits := by
  unfold syncGeometry
  cases self._initialized <;> cases ct.IsPrimvarDirtyPoints bits <;> cases tc <;> rfl

theorem Sync_dirtyBits {R : Type} [Add R] [Mul R] [Zero R] [One R] (ct : HdChangeTracker)
    (rp : HdMoonshineRenderParam) (self : HdMoonshineMesh R) (inp : SyncInput R) :
    (Sync ct rp self inp).dirtyBits
      = (syncGeometry ct rp self inp
          (ct.IsTransformDirty inp.dirtyBits || ct.IsInstancerDirty inp.dirtyBits)
          (syncTransform ct self inp).1
          (syncInstancer ct self inp (syncTransform ct self inp).2).1
          (syncInstancer ct self inp (syncTransform ct self inp).2).2.2).2.2 := rfl

theorem ite_clearBits_testBit_le (c : Bool) (b m i : Nat)
    (h : (if c then clearBits b m else b).testBit i = true) : b.testBit i = true := by
  cases c
  · exact h
  · exact clearBits_testBit_le b m i h

theorem ite_clearBits_land_of_land_eq_zero (c : Bool) (b m k : Nat) (h : b &&& k = 0) :
    (if c then clearBits b m else b) &&& k = 0 := by
  cases c
  · exact h
  · exact clearBits_land_of_land_eq_zero b m k h

theorem ite_clearBits_land_of_disjoint (c : Bool) {m k : Nat} (hm : m < 2 ^ 32)
    (hk : k < 2 ^ 32) (h : m &&& k = 0) (b : Nat) :
    (if c then clearBits b m else b) &&& k = b &&& k := by
  cases c
  · rfl
  · exact clearBits_land_of_disjoint hm hk h b

theorem ite_clearBits_land_self {m : Nat} (hm : m < 2 ^ 32) (b : Nat) :
    (if ((b &&& m) != 0) then clearBits b m else b) &&& m = 0 := by
  cases h : ((b &&& m) != 0)
  · simpa using h
  · exact clearBits_land_self hm b

theorem Sync_bits_le {R : Type} [Add R] [Mul R] [Zero R] [One R] (ct : HdChangeTracker)
    (rp : HdMoonshineRenderParam) (self : HdMoonshineMesh R) (inp : SyncInput R) (i : Nat)
    (h : (Sync ct rp self inp).dirtyBits.testBit i = true) :
    inp.dirtyBits.testBit i = true := by
  rw [Sync_dirtyBits, syncGeometry_bits] at h
  have h1 := ite_clearBits_testBit_le _ _ _ _ h
  rw [syncInstancer_bits] at h1
  have h2 := ite_clearBits_testBit_le _ _ _ _ h1
  rw [syncTransform_bits] at h2
  exact ite_clearBits_testBit_le _ _ _ _ h2

theorem Sync_bits_transform {R : Type} [Add R] [Mul R] [Zero R] [One R]
    {ct : HdChangeTracker} (wf : ct.WellFormed) (rp : HdMoonshineRenderParam)
    (self : HdMoonshineMesh R) (inp : SyncInput R) :
    (Sync ct rp self inp).dirtyBits &&& ct.DirtyTransform = 0 := by
  rw [Sync_dirtyBits, syncGeometry_bits]
  apply ite_clearBits_land_of_land_eq_zero
  rw [syncInstancer_bits]
  apply ite_clearBits_land_of_land_eq_zero
  rw [syncTransform_bits]
  exact ite_clearBits_land_self wf.transform_lt _

theorem Sync_bits_instancer {R : Type} [Add R] [Mul R] [Zero R] [One R]
    {ct : HdChangeTracker} (wf : ct.WellFormed) (rp : HdMoonshineRenderParam)
    (self : HdMoonshineMesh R) (inp : SyncInput R) :
    (Sync ct rp self inp).dirtyBits &&& ct.DirtyInstancer = 0 := by
  rw [Sync_dirtyBits, syncGeometry_bits]
  apply ite_clearBits_land_of_land_eq_zero
  rw [syncInstancer_bits]
  exact ite_clearBits_land_self wf.instancer_lt _

theorem Sync_bits_points_of_uninitialized {R : Type} [Add R] [Mul R] [Zero R] [One R]
    {ct : HdChangeTracker} (wf : ct.WellFormed) (rp : HdMoonshineRenderParam)
    (self : HdMoonshineMesh R) (inp : SyncInput R) (hinit : self._initialized = false) :
    (Sync ct rp self inp).dirtyBits &&& ct.DirtyPoints = 0 := by
  rw [Sync_dirtyBits, syncGeometry_bits, hinit]
  simp only [Bool.not_false, Bool.true_and]
  exact ite_clearBits_land_self wf.points_lt _

theorem Sync_bits_points_of_initialized {R : Type} [Add R] [Mul R] [Zero R] [One R]
    {ct : HdChangeTracker} (wf : ct.WellFormed) (rp : HdMoonshineRenderParam)
    (self : HdMoonshineMesh R) (inp : SyncInput R) (hinit : self._initialized = true) :
    (Sync ct rp self inp).dirtyBits &&& ct.DirtyPoints
      = inp.dirtyBits &&& ct.DirtyPoints := by
  rw [Sync_dirtyBits, syncGeometry_bits, hinit]
  simp only [Bool.not_true, Bool.false_and, Bool.false_eq_true, if_false]
  rw [syncInstancer_bits,
    ite_clearBits_land_of_disjoint _ wf.instancer_lt wf.points_lt wf.instancer_points,
    syncTransform_bits,
    ite_clearBits_land_of_disjoint _ wf.transform_lt wf.points_lt wf.transform_points]

/-! ## The first `Sync` with the initial dirty mask -/

theorem initialMask_transformDirty {ct : HdChangeTracker} (wf : ct.WellFormed) :
    ct.IsTransformDirty (GetInitialDirtyBitsMask ct) = true := by
  have h : GetInitialDirtyBitsMask ct &&& ct.DirtyTransform = ct.DirtyTransform := by
    apply Nat.eq_of_testBit_eq
    intro i
    unfold GetInitialDirtyBitsMask
    rw [Nat.testBit_land, Nat.testBit_lor, Nat.testBit_lor]
    cases ct.DirtyPoints.testBit i <;> cases ct.DirtyTransform.testBit i <;>
      cases ct.DirtyInstancer.testBit i <;> rfl
  unfold HdChangeTracker.IsTransformDirty
  rw [h]
  simpa using wf.transform_ne

theorem initialMask_instancerDirty {ct : HdChangeTracker} (wf : ct.WellFormed) :
    ct.IsInstancerDirty (GetInitialDirtyBitsMask ct) = true := by
  have h : GetInitialDirtyBitsMask ct &&& ct.DirtyInstancer = ct.DirtyInstancer := by
    apply Nat.eq_of_testBit_eq
    intro i
    unfold GetInitialDirtyBitsMask
    rw [Nat.testBit_land, Nat.testBit_lor, Nat.testBit_lor]
    cases ct.DirtyPoints.testBit i <;> cases ct.DirtyTransform.testBit i <;>
      cases ct.DirtyInstancer.testBit i <;> rfl
  unfold HdChangeTracker.IsInstancerDirty
  rw [h]
  simpa using wf.instancer_ne

theorem initialMask_pointsDirty {ct : HdChangeTracker} (wf : ct.WellFormed) :
    ct.IsPrimvarDirtyPoints (GetInitialDirtyBitsMask ct) = true := by
  have h : GetInitialDirtyBitsMask ct &&& ct.DirtyPoints = ct.DirtyPoints := by
    apply Nat.eq_of_testBit_eq
    intro i
    unfold GetInitialDirtyBitsMask
    rw [Nat.testBit_land, Nat.testBit_lor, Nat.testBit_lor]
    cases ct.DirtyPoints.testBit i <;> cases ct.DirtyTransform.testBit i <;>
      cases ct.DirtyInstancer.testBit i <;> rfl
  unfold HdChangeTracker.IsPrimvarDirtyPoints
  rw [h]
  simpa using wf.points_ne

theorem initialMask_cleared {ct : HdChangeTracker} (wf : ct.WellFormed) :
    clearBits (clearBits (clearBits (GetInitialDirtyBitsMask ct) ct.DirtyTransform)
      ct.DirtyInstancer) ct.DirtyPoints = 0 := by
  apply Nat.eq_of_testBit_eq
  intro i
  rw [testBit_clearBits wf.points_lt, testBit_clearBits wf.instancer_lt,
    testBit_clearBits wf.transform_lt, Nat.zero_testBit]
  unfold GetInitialDirtyBitsMask
  rw [Nat.testBit_lor, Nat.testBit_lor]
  cases ct.DirtyPoints.testBit i <;> cases ct.DirtyTransform.testBit i <;>
    cases ct.DirtyInstancer.testBit i <;> simp

theorem IsClean_zero (ct : HdChangeTracker) : ct.IsClean 0 = true := by
  simp [HdChangeTracker.IsClean]

theorem Sync_first_with_initial_mask {R : Type} [Add R] [Mul R] [Zero R] [One R]
    {ct : HdChangeTracker} (wf : ct.WellFormed) (rp : HdMoonshineRenderParam)
    (id : SdfPath) (uninit : GfMatrix4f R) (inp : SyncInput R)
    (hbits : inp.dirtyBits = GetInitialDirtyBitsMask ct) :
    Sync ct rp (HdMoonshineMesh.new id uninit) inp
      = { mesh :=
            { id := id, _transform := inp.transform,
              _instancesTransforms := recomputeInstanceTransforms inp,
              _instances :=
                (createInstanceLoop rp._moonshine inp.transform
                  { mesh := inp.meshHandle, material := rp._material, sampled := false }
                  inp.instanceHandle 0 (recomputeInstanceTransforms inp)).2,
              _initialized := true },
          dirtyBits := 0,
          events :=
            Event.HdMoonshineCreateMesh rp._moonshine inp.points inp.points.length
              inp.indices inp.indices.length inp.meshHandle
            :: (createInstanceLoop rp._moonshine inp.transform
                  { mesh := inp.meshHandle, material := rp._material, sampled := false }
                  inp.instanceHandle 0 (recomputeInstanceTransforms inp)).1 } := by
  have h1 : syncTransform ct (HdMoonshineMesh.new id uninit) inp
      = (inp.transform, clearBits (GetInitialDirtyBitsMask ct) ct.DirtyTransform) := by
    unfold syncTransform
    rw [hbits, initialMask_transformDirty wf]
    rfl
  have h2 : syncInstancer ct (HdMoonshineMesh.new id uninit) inp
        (clearBits (GetInitialDirtyBitsMask ct) ct.DirtyTransform)
      = (recomputeInstanceTransforms inp, [],
          clearBits (clearBits (GetInitialDirtyBitsMask ct) ct.DirtyTransform)
            ct.DirtyInstancer) := by
    unfold syncInstancer
    rw [IsInstancerDirty_clear_transform wf, initialMask_instancerDirty wf]
    rfl
  have h3 : ct.IsPrimvarDirtyPoints
      (clearBits (clearBits (GetInitialDirtyBitsMask ct) ct.DirtyTransform)
        ct.DirtyInstancer) = true := by
    rw [IsPrimvarDirtyPoints_clear_instancer wf, IsPrimvarDirtyPoints_clear_transform wf,
      initialMask_pointsDirty wf]
  unfold Sync
  simp only [h1, h2, syncGeometry_of_uninitialized _ _ (HdMoonshineMesh.new id uninit) _ _ _ _ _
    rfl, h3, if_true, initialMask_cleared wf]
  simp [syncReport, IsClean_zero, HdMoonshineMesh.new]

/-! ## Which events each step can report -/

theorem syncInstancer_events {R : Type} [Zero R] [One R] (ct : HdChangeTracker)
    (self : HdMoonshineMesh R) (inp : SyncInput R) (bits : HdDirtyBits) :
    (syncInstancer ct self inp bits).2.1
      = if (ct.IsInstancerDirty bits && (self._initialized
            && self._instancesTransforms.length != (recomputeInstanceTransforms inp).length))
        then [Event.changedInstanceCountError self.id] else [] := by
  unfold syncInstancer
  cases ct.IsInstancerDirty bits <;> simp

theorem syncGeometry_engineCalls {R : Type} [Add R] [Mul R] (ct : HdChangeTracker)
    (rp : HdMoonshineRenderParam) (self : HdMoonshineMesh R) (inp : SyncInput R)
    (tc : Bool) (t : GfMatrix4f R) (its : List (GfMatrix4f R)) (bits : HdDirtyBits) :
    engineCalls (syncGeometry ct rp self inp tc t its bits).2.1
      = (syncGeometry ct rp self inp tc t its bits).2.1 := by
  cases hinit : self._initialized
  · rw [syncGeometry_of_uninitialized _ _ _ _ _ _ _ _ hinit]
    split
    · have h := createInstanceLoop_engineCalls rp._moonshine t
        { mesh := inp.meshHandle, material := rp._material, sampled := false }
        inp.instanceHandle 0 its
      unfold engineCalls at h ⊢
      simp only [List.filter_cons, Event.isEngineCall, if_true, h]
    · rfl
  · rw [syncGeometry_of_initialized _ _ _ _ _ _ _ _ hinit]
    cases tc
    · rfl
    · exact setTransformLoop_engineCalls _ _ _ _ _

theorem syncGeometry_isEngineCall {R : Type} [Add R] [Mul R] (ct : HdChangeTracker)
    (rp : HdMoonshineRenderParam) (self : HdMoonshineMesh R) (inp : SyncInput R)
    (tc : Bool) (t : GfMatrix4f R) (its : List (GfMatrix4f R)) (bits : HdDirtyBits)
    (e : Event R) (he : e ∈ (syncGeometry ct rp self inp tc t its bits).2.1) :
    e.isEngineCall = true := by
  have h := syncGeometry_engineCalls ct rp self inp tc t its bits
  unfold engineCalls at h
  exact (List.filter_eq_self.mp h) e he

theorem Sync_events {R : Type} [Add R] [Mul R] [Zero R] [One R] (ct : HdChangeTracker)
    (rp : HdMoonshineRenderParam) (self : HdMoonshineMesh R) (inp : SyncInput R) :
    (Sync ct rp self inp).events
      = (syncInstancer ct self inp (syncTransform ct self inp).2).2.1
        ++ (syncGeometry ct rp self inp
            (ct.IsTransformDirty inp.dirtyBits || ct.IsInstancerDirty inp.dirtyBits)
            (syncTransform ct self inp).1
            (syncInstancer ct self inp (syncTransform ct self inp).2).1
            (syncInstancer ct self inp (syncTransform ct self inp).2).2.2).2.1
        ++ syncReport ct self (Sync ct rp self inp).dirtyBits := rfl

theorem Sync_ignoredDirtyBits_mem {R : Type} [Add R] [Mul R] [Zero R] [One R]
    (ct : HdChangeTracker) (rp : HdMoonshineRenderParam)
    (self : HdMoonshineMesh R) (inp : SyncInput R) :
    Event.ignoredDirtyBitsError (Sync ct rp self inp).dirtyBits self.id
        ∈ (Sync ct rp self inp).events
      ↔ ct.IsClean (Sync ct rp self inp).dirtyBits = false := by
  rw [Sync_events, List.mem_append, List.mem_append, syncInstancer_events]
  constructor
  · rintro ((h | h) | h)
    · split at h
      · simp at h
      · exact absurd h (List.not_mem_nil _)
    · have := syncGeometry_isEngineCall _ _ _ _ _ _ _ _ _ h
      exact Bool.noConfusion this
    · unfold syncReport at h
      split at h
      · rename_i hc
        simpa using hc
      · exact absurd h (List.not_mem_nil _)
  · intro h
    refine Or.inr ?_
    unfold syncReport
    simp [h]

theorem SyncAll_append {R : Type} [Add R] [Mul R] [Zero R] [One R] (ct : HdChangeTracker)
    (rp : HdMoonshineRenderParam) (a b : List (SyncInput R)) (self : HdMoonshineMesh R) :
    SyncAll ct rp self (a ++ b)
      = ((SyncAll ct rp (SyncAll ct rp self a).1 b).1,
         (SyncAll ct rp self a).2 ++ (SyncAll ct rp (SyncAll ct rp self a).1 b).2) := by
  induction a generalizing self with
  | nil => rfl
  | cons inp rest ih =>
    show SyncAll ct rp self (inp :: (rest ++ b)) = _
    simp only [SyncAll, ih, List.append_assoc]

/-! ## Properties of one `Sync` call -/

/-- C6: a first `Sync` on a fresh adapter with the initial dirty mask reads the
transform, the instancer and the points, returns with no dirty bit left and reports
no ignored-bits error; every `Sync` returns with the transform and instancer bits
clear, with the points bit clear when the adapter was not initialized on entry and
unchanged when it was, sets no bit that was clear on entry, and reports the
ignored-bits error exactly when the bits it returns are not clean. -/
theorem C6_dirty_bits_consumed {R : Type} [Add R] [Mul R] [Zero R] [One R]
    (ct : HdChangeTracker) (wf : ct.WellFormed) (rp : HdMoonshineRenderParam)
    (id : SdfPath) (uninit : GfMatrix4f R) (first : SyncInput R)
    (self : HdMoonshineMesh R) (inp : SyncInput R) :
    (first.dirtyBits = GetInitialDirtyBitsMask ct →
      (Sync ct rp (HdMoonshineMesh.new id uninit) first).dirtyBits = 0
      ∧ ct.IsClean (Sync ct rp (HdMoonshineMesh.new id uninit) first).dirtyBits = true
      ∧ (∀ e ∈ (Sync ct rp (HdMoonshineMesh.new id uninit) first).events,
          e.isIgnoredDirtyBits = false)
      ∧ (Sync ct rp (HdMoonshineMesh.new id uninit) first).mesh._transform = first.transform
      ∧ (Sync ct rp (HdMoonshineMesh.new id uninit) first).mesh._instancesTransforms
          = recomputeInstanceTransforms first
      ∧ createdMeshes (Sync ct rp (HdMoonshineMesh.new id uninit) first).events
          = [first.meshHandle])
    ∧ (Sync ct rp self inp).dirtyBits &&& ct.DirtyTransform = 0
    ∧ (Sync ct rp self inp).dirtyBits &&& ct.DirtyInstancer = 0
    ∧ (self._initialized = false → (Sync ct rp self inp).dirtyBits &&& ct.DirtyPoints = 0)
    ∧ (self._initialized = true →
        (Sync ct rp self inp).dirtyBits &&& ct.DirtyPoints = inp.dirtyBits &&& ct.DirtyPoints)
    ∧ (∀ i, (Sync ct rp self inp).dirtyBits.testBit i = true → inp.dirtyBits.testBit i = true)
    ∧ (Event.ignoredDirtyBitsError (Sync ct rp self inp).dirtyBits self.id
          ∈ (Sync ct rp self inp).events
        ↔ ct.IsClean (Sync ct rp self inp).dirtyBits = false) := by
  refine ⟨?_, Sync_bits_transform wf rp self inp, Sync_bits_instancer wf rp self inp,
    Sync_bits_points_of_uninitialized wf rp self inp,
    Sync_bits_points_of_initialized wf rp self inp,
    Sync_bits_le ct rp self inp, Sync_ignoredDirtyBits_mem ct rp self inp⟩
  intro hbits
  have hp : ct.IsPrimvarDirtyPoints first.dirtyBits = true := by
    rw [hbits]; exact initialMask_pointsDirty wf
  have hm := Sync_createdMeshes_of_uninitialized wf rp (HdMoonshineMesh.new id uninit)
    first rfl
  rw [hp] at hm
  rw [Sync_first_with_initial_mask wf rp id uninit first hbits] at hm ⊢
  refine ⟨rfl, IsClean_zero ct, ?_, rfl, rfl, hm⟩
  intro e he
  have hall := createInstanceLoop_engineCalls rp._moonshine first.transform
    { mesh := first.meshHandle, material := rp._material, sampled := false }
    first.instanceHandle 0 (recomputeInstanceTransforms first)
  unfold engineCalls at hall
  rcases List.mem_cons.mp he with h | h
  · rw [h]; rfl
  · have := (List.filter_eq_self.mp hall) e h
    cases e <;> first | rfl | exact Bool.noConfusion this

/-- Witness for C6: the concrete host constants; the first call carries the initial
dirty mask, the later call bits 0, 1, 5 and 9 on the initialized adapter. -/
theorem C6_dirty_bits_consumed_witness :
    hostBits.WellFormed
    ∧ (call0 initMask0 true []).dirtyBits = GetInitialDirtyBitsMask hostBits
    ∧ (Sync hostBits rp0 (HdMoonshineMesh.new "/prim" m16) (call0 initMask0 true [])).dirtyBits
        = 0
    ∧ synced0._initialized = true
    ∧ (Sync hostBits rp0 synced0 (call0 547 true [])).dirtyBits &&& hostBits.DirtyPoints
        = (call0 547 true []).dirtyBits &&& hostBits.DirtyPoints := by
  have h := C6_dirty_bits_consumed hostBits hostBits_wellFormed rp0 "/prim" m16
    (call0 initMask0 true []) synced0 (call0 547 true [])
  exact ⟨hostBits_wellFormed, rfl, (h.1 rfl).1, rfl, h.2.2.2.2.1 rfl⟩

/-- C8: the engine matrix of both loops of `Sync` is the same function of the
adapter state: with `M = _transform * _instancesTransforms[i]`, row `r` and column
`c` of the engine matrix hold `M[c][r]`; and the matrices `Sync` hands to the
engine are, index by index, those of the per-instance transforms. -/
theorem C8_engine_matrix_is_transposed_product {R : Type} [Add R] [Mul R] [Zero R] [One R]
    (ct : HdChangeTracker) (rp : HdMoonshineRenderParam) (self : HdMoonshineMesh R)
    (inp : SyncInput R) :
    (∀ t it : GfMatrix4f R,
        createInstanceMatrix t it = specEngineMatrix (GfMatrix4f.mul t it)
        ∧ setTransformMatrix t it = specEngineMatrix (GfMatrix4f.mul t it))
    ∧ (∀ (M : GfMatrix4f R) (r : Fin 3) (c : Fin 4),
        (specEngineMatrix M).entry r c = M c r.castSucc)
    ∧ (engineMatrices (Sync ct rp self inp).events = []
        ∨ engineMatrices (Sync ct rp self inp).events
            = (Sync ct rp self inp).mesh._instancesTransforms.map fun it =>
                specEngineMatrix (GfMatrix4f.mul (Sync ct rp self inp).mesh._transform it)) := by
  have hmat : ∀ t it : GfMatrix4f R,
      createInstanceMatrix t it = specEngineMatrix (GfMatrix4f.mul t it)
      ∧ setTransformMatrix t it = specEngineMatrix (GfMatrix4f.mul t it) :=
    fun t it => ⟨rfl, rfl⟩
  refine ⟨hmat, ?_, ?_⟩
  · intro M r c
    fin_cases r <;> fin_cases c <;> rfl
  · have hI := syncInstancer_projections ct self inp (syncTransform ct self inp).2
    cases hinit : self._initialized
    · simp only [Sync, syncGeometry_of_uninitialized _ _ _ _ _ _ _ _ hinit,
        engineMatrices_append, hI.2.2.1, (syncReport_projections ct self _).2.2.1,
        List.nil_append, List.append_nil]
      split
      · right
        simp only [engineMatrices, createInstanceLoop_engineMatrices]
        exact List.map_congr_left fun it _ => (hmat _ it).1
      · left; rfl
    · simp only [Sync, syncGeometry_of_initialized _ _ _ _ _ _ _ _ hinit,
        engineMatrices_append, hI.2.2.1, (syncReport_projections ct self _).2.2.1,
        List.nil_append, List.append_nil]
      split
      · right
        rw [setTransformLoop_engineMatrices]
        exact List.map_congr_left fun it _ => (hmat _ it).2
      · left; rfl

/-! ## Properties of sequences of `Sync` calls -/

/-- C1 (as stated, refuted): a first `Sync` on a fresh adapter whose dirty bits hold
the transform bit but not the points bit issues no create-mesh call at all. -/
theorem C1_no_mesh_without_points_bit :
    [call0 512 true []] ≠ []
    ∧ (createdMeshes (SyncAll hostBits rp0 fresh0 [call0 512 true []]).2).length ≠ 1 :=
  ⟨List.cons_ne_nil _ _, by decide⟩

/-- C1 (amended): over every non-empty sequence of `Sync` calls on a fresh adapter
the create-mesh call is issued exactly once when the dirty bits of the first call
hold the points bit, and not at all otherwise; so never more than once. -/
theorem C1_mesh_created_once_iff_first_sync_has_points {R : Type} [Add R] [Mul R] [Zero R]
    [One R] (ct : HdChangeTracker) (wf : ct.WellFormed) (rp : HdMoonshineRenderParam)
    (id : SdfPath) (uninit : GfMatrix4f R) (first : SyncInput R) (rest : List (SyncInput R)) :
    createdMeshes (SyncAll ct rp (HdMoonshineMesh.new id uninit) (first :: rest)).2
        = (if ct.IsPrimvarDirtyPoints first.dirtyBits then [first.meshHandle] else [])
    ∧ (createdMeshes (SyncAll ct rp (HdMoonshineMesh.new id uninit) (first :: rest)).2).length
        = (if ct.IsPrimvarDirtyPoints first.dirtyBits then 1 else 0) := by
  have h : createdMeshes (SyncAll ct rp (HdMoonshineMesh.new id uninit) (first :: rest)).2
      = (if ct.IsPrimvarDirtyPoints first.dirtyBits then [first.meshHandle] else []) := by
    simp only [SyncAll, createdMeshes_append,
      Sync_createdMeshes_of_uninitialized wf rp (HdMoonshineMesh.new id uninit) first rfl,
      SyncAll_createdMeshes_of_initialized ct rp rest _ (Sync_initialized ct rp _ first),
      List.append_nil]
  refine ⟨h, ?_⟩
  rw [h]
  split <;> rfl

/-- Witness for C1 (amended): the concrete host constants, a first call with the
initial dirty mask and a second call with the transform bit. -/
theorem C1_mesh_created_once_witness :
    hostBits.WellFormed
    ∧ (createdMeshes (SyncAll hostBits rp0 (HdMoonshineMesh.new "/prim" m16)
          [call0 initMask0 true [], call0 512 true []]).2).length
        = (if hostBits.IsPrimvarDirtyPoints (call0 initMask0 true []).dirtyBits then 1 else 0) :=
  ⟨hostBits_wellFormed,
    (C1_mesh_created_once_iff_first_sync_has_points hostBits hostBits_wellFormed rp0 "/prim"
      m16 (call0 initMask0 true []) [call0 512 true []]).2⟩

/-- C3 (as stated, refuted): after one `Sync` with the initial dirty mask the engine
has returned mesh handle 7, and `Finalize` passes no handle to a destroy-mesh call. -/
theorem C3_mesh_handle_never_destroyed :
    createdMeshes (SyncAll hostBits rp0 fresh0 [call0 initMask0 true []]).2 = [⟨7⟩]
    ∧ ¬ (∀ h ∈ createdMeshes (SyncAll hostBits rp0 fresh0 [call0 initMask0 true []]).2,
          (destroyedMeshes
            (Finalize rp0 (SyncAll hostBits rp0 fresh0 [call0 initMask0 true []]).1
              : List (Event Int))).count h = 1) := by
  decide

/-- C3 (amended): for every sequence of `Sync` calls on a fresh adapter followed by
`Finalize`, the calls of `Finalize` are exactly one destroy-instance call for each
instance handle the create-instance calls returned, in creation order. -/
theorem C3_finalize_destroys_created_instances {R : Type} [Add R] [Mul R] [Zero R] [One R]
    (ct : HdChangeTracker) (rp : HdMoonshineRenderParam) (id : SdfPath)
    (uninit : GfMatrix4f R) (inputs : List (SyncInput R)) :
    Finalize rp (SyncAll ct rp (HdMoonshineMesh.new id uninit) inputs).1
      = (createdInstances (SyncAll ct rp (HdMoonshineMesh.new id uninit) inputs).2).map
          fun h => (Event.HdMoonshineDestroyInstance rp._moonshine h : Event R) := by
  unfold Finalize
  rw [SyncAll_instances_eq_append_created]
  rfl

/-- C5 (as stated, refuted): a first `Sync` with one instance followed by a `Sync`
whose instancer reports two leaves the adapter initialized with one instance
handle and two per-instance transforms. -/
theorem C5_lengths_differ_after_count_change :
    (SyncAll hostBits rp0 fresh0
        [call0 initMask0 false [m16], call0 65536 false [m16, m16]]).1._initialized = true
    ∧ (SyncAll hostBits rp0 fresh0
        [call0 initMask0 false [m16], call0 65536 false [m16, m16]]).1._instances.length
      ≠ (SyncAll hostBits rp0 fresh0
        [call0 initMask0 false [m16],
          call0 65536 false [m16, m16]]).1._instancesTransforms.length := by
  decide

/-- C5 (amended): for every sequence of `Sync` calls on a fresh adapter whose first
call has the points bit set and in which no call reports the changed-instance-count
error, after each call (the first, and each call of `mid`) the adapter is
initialized and `_instances` has the length of `_instancesTransforms`. -/
theorem C5_one_handle_per_instance {R : Type} [Add R] [Mul R] [Zero R] [One R]
    (ct : HdChangeTracker) (wf : ct.WellFormed) (rp : HdMoonshineRenderParam)
    (id : SdfPath) (uninit : GfMatrix4f R) (first : SyncInput R)
    (mid post : List (SyncInput R))
    (hp : ct.IsPrimvarDirtyPoints first.dirtyBits = true)
    (hne : ∀ e ∈ (SyncAll ct rp (HdMoonshineMesh.new id uninit) (first :: (mid ++ post))).2,
      e.isChangedInstanceCount = false) :
    (SyncAll ct rp (HdMoonshineMesh.new id uninit) (first :: mid)).1._initialized = true
    ∧ (SyncAll ct rp (HdMoonshineMesh.new id uninit) (first :: mid)).1._instances.length
        = (SyncAll ct rp (HdMoonshineMesh.new id uninit)
            (first :: mid)).1._instancesTransforms.length := by
  simp only [SyncAll, SyncAll_append] at hne ⊢
  apply SyncAll_lengths_of_initialized ct rp mid _ (Sync_initialized ct rp _ first)
  · have h := Sync_lengths_of_uninitialized wf rp (HdMoonshineMesh.new id uninit) first rfl hp
    rw [h]
    simp [HdMoonshineMesh.new]
  · intro e he
    exact hne e (List.mem_append_right _ (List.mem_append_left _ he))

/-- Witness for C5 (amended): a first call with the initial dirty mask and one
instance, then two calls whose instancer again reports one instance; the state
is taken after the second call. -/
theorem C5_one_handle_per_instance_witness :
    hostBits.WellFormed
    ∧ hostBits.IsPrimvarDirtyPoints (call0 initMask0 false [m16]).dirtyBits = true
    ∧ (∀ e ∈ (SyncAll hostBits rp0 (HdMoonshineMesh.new "/prim" m16)
          (call0 initMask0 false [m16]
            :: ([call0 65536 false [m16]] ++ [call0 66048 false [m16]]))).2,
        e.isChangedInstanceCount = false)
    ∧ (SyncAll hostBits rp0 (HdMoonshineMesh.new "/prim" m16)
          [call0 initMask0 false [m16], call0 65536 false [m16]]).1._instances.length
        = (SyncAll hostBits rp0 (HdMoonshineMesh.new "/prim" m16)
          [call0 initMask0 false [m16],
            call0 65536 false [m16]]).1._instancesTransforms.length :=
  ⟨hostBits_wellFormed, by decide, by decide,
    (C5_one_handle_per_instance hostBits hostBits_wellFormed rp0 "/prim" m16
      (call0 initMask0 false [m16]) [call0 65536 false [m16]] [call0 66048 false [m16]]
      (by decide) (by decide)).2⟩

/-- C10 (the code at the failing input): a first `Sync` with one instance, then a
`Sync` whose instancer reports two; the update loop of the second call reads
`_instances[0]` and then `_instances[1]`, past the end of the one-element vector. -/
theorem C10_update_loop_reads_past_end :
    (SyncAll hostBits rp0 fresh0
        [call0 initMask0 false [m16]]).1._instances.length = 1
    ∧ updateReads (SyncAll hostBits rp0 fresh0
        [call0 initMask0 false [m16], call0 65536 false [m16, m16]]).2
      = [some ⟨100⟩, none] := by
  decide

end Moonshine
